import Mathlib

/-!
Verification development for the Bluesky desktop client shell
(`preload.js` main-process logic, its injected page script, and the
test-suite's scrubbing error sanitizer).

The definitions below are a shallow embedding of the source:

* URL handling models the WHATWG URL parser (Node's `new URL`) to the
  depth the program exercises: scheme extraction, authority/host/port
  parsing for special schemes, host normalization (ASCII lowercasing and
  IDNA label-separator mapping; distinct non-ASCII code points remain
  distinct, standing in for injective punycode encoding), default-port
  elision, and the WHATWG origin rules (tuple origin for special
  schemes, "null" for non-special and file schemes, inner-URL origin
  for blob URLs).  IPv6-with-port authorities and input whitespace
  stripping are not modelled; no claim exercises them.
* Timer/listener handles are natural-number ids; live resources are
  lists of ids so that cancellation and exact-reference listener removal
  are observable.
* The asynchronous pieces (the `finally`-scheduled loading-flag reset,
  the cleanup race against the 3-second timeout) are modelled as
  explicit events and resolve-time arithmetic.
-/

/-! ## URL model (WHATWG `new URL`, as used by `preload.js`) -/

/-- Characters allowed in a URL scheme after the first (which must be an
ASCII letter): ASCII alphanumerics and `+`, `-`, `.`. -/
def schemeCharOK (c : Char) : Bool :=
  c.isAlpha || c.isDigit || c = '+' || c = '-' || c = '.'

/-- Scan a candidate scheme: accumulate scheme characters until a `:`.
Returns the scheme characters (reversed accumulator fixed up) and the
remainder after the colon, or `none` when no well-formed `scheme:` head
exists. -/
def splitSchemeAux : List Char → List Char → Option (List Char × List Char)
  | [], _ => none
  | c :: rest, acc =>
    if c = ':' then some (acc.reverse, rest)
    else if schemeCharOK c then splitSchemeAux rest (c :: acc)
    else none

/-- Split `scheme:rest`; the first character must be an ASCII letter. -/
def splitScheme (s : List Char) : Option (List Char × List Char) :=
  match s with
  | [] => none
  | c :: _ => if c.isAlpha then splitSchemeAux s [] else none

/-- WHATWG special schemes. -/
def specialSchemes : List String := ["ftp", "file", "http", "https", "ws", "wss"]

/-- Default port of a special scheme, elided from serialized origins. -/
def defaultPort (scheme : String) : Option Nat :=
  if scheme = "http" ∨ scheme = "ws" then some 80
  else if scheme = "https" ∨ scheme = "wss" then some 443
  else if scheme = "ftp" then some 21
  else none

/-- Skip every leading slash or backslash (WHATWG special-authority-ignore-slashes). -/
def dropSlashes : List Char → List Char
  | [] => []
  | c :: rest => if c = '/' ∨ c = '\\' then dropSlashes rest else c :: rest

/-- Take the authority component: everything up to a `/`, `?`, `#` or `\`. -/
def takeAuthority (cs : List Char) : List Char :=
  cs.takeWhile (fun c => ¬ (['/', '?', '#', '\\'].contains c))

/-- Strip userinfo: the host-port part is what follows the last `@`. -/
def stripUserinfo (auth : List Char) : List Char :=
  (auth.reverse.takeWhile (fun c => c ≠ '@')).reverse

/-- Decimal digits to a natural number. -/
def digitsToNat (ds : List Char) : Nat :=
  ds.foldl (fun n c => n * 10 + (c.toNat - 48)) 0

/-- Split `host:port`.  `none` signals a parse failure (bad port).
A bracketed (IPv6) host must close its bracket and carries no port in
this model. -/
def splitHostPort (hp : List Char) : Option (List Char × Option Nat) :=
  match hp with
  | '[' :: _ => if hp.getLast? = some ']' then some (hp, none) else none
  | _ =>
    if (':' ∈ hp) then
      let host := hp.takeWhile (fun c => c ≠ ':')
      let portStr := hp.drop (host.length + 1)
      if (':' ∈ portStr) then none
      else if portStr = [] then some (host, none)
      else if portStr.all Char.isDigit then some (host, some (digitsToNat portStr))
      else none
    else some (hp, none)

/-- Host-character normalization: IDNA label separators (fullwidth full
stop U+FF0E, ideographic full stop U+3002, halfwidth ideographic full
stop U+FF61) map to `.`; ASCII letters are lowercased; any other code
point is kept as itself (distinct look-alike code points stay distinct,
as punycode encoding is injective). -/
def normHostChar (c : Char) : Char :=
  if c.toNat = 0xFF0E ∨ c.toNat = 0x3002 ∨ c.toNat = 0xFF61 then '.'
  else c.toLower

/-- Normalize a host. -/
def normalizeHost (cs : List Char) : String :=
  String.mk (cs.map normHostChar)

/-- Parsed URL: lowercased scheme, normalized host (empty for
non-special and host-less file URLs), port with the scheme default
elided, and for non-special schemes the raw remainder after the colon
(needed for blob origins). -/
structure JsURL where
  scheme : String
  host : String
  port : Option Nat
  rest : String
deriving DecidableEq, Repr

/-- Authority of a file URL: present only after exactly `//`. -/
def fileAuthority (cs : List Char) : List Char :=
  match cs with
  | c1 :: c2 :: rest => if c1 = '/' ∧ c2 = '/' then takeAuthority rest else []
  | _ => []

/-- Parse the authority of a special scheme into host and port. -/
def parseSpecialAuthority (scheme : String) (auth : List Char) :
    Option (String × Option Nat) :=
  match splitHostPort (stripUserinfo auth) with
  | none => none
  | some (hostChars, rawPort) =>
    let host := normalizeHost hostChars
    if host = "" ∧ scheme ≠ "file" then none
    else
      let port := match rawPort with
        | some p => if defaultPort scheme = some p then none else some p
        | none => none
      some (host, port)

/-- The embedding of `new URL(urlString)`: `none` means the constructor
throws.  Faithful to WHATWG parsing on the shapes this program meets. -/
def parseBase (s : String) : Option JsURL :=
  match splitScheme s.data with
  | none => none
  | some (schemeChars, rest) =>
    let scheme := String.mk (schemeChars.map Char.toLower)
    if scheme ∈ specialSchemes then
      let auth := if scheme = "file" then fileAuthority rest
                  else takeAuthority (dropSlashes rest)
      match parseSpecialAuthority scheme auth with
      | none => none
      | some (host, port) => some ⟨scheme, host, port, ""⟩
    else
      some ⟨scheme, "", none, String.mk rest⟩

/-- The `protocol` property: scheme plus the trailing colon. -/
def protocolOf (u : JsURL) : String := u.scheme ++ ":"

/-- WHATWG origin serialization of a parsed URL, blob handling aside:
special schemes other than file serialize their tuple origin; file and
non-special schemes have the opaque origin "null". -/
def baseOrigin (u : JsURL) : String :=
  if u.scheme ∈ specialSchemes ∧ u.scheme ≠ "file" then
    u.scheme ++ "://" ++ u.host ++
      (match u.port with
       | some p => ":" ++ toString p
       | none => "")
  else "null"

/-- The `origin` property of `new URL s`, including the blob rule: a
blob URL's origin is the origin of the URL parsed from its remainder
(opaque when that re-parse fails).  `none` means `new URL` threw. -/
def urlOrigin (s : String) : Option String :=
  match parseBase s with
  | none => none
  | some u =>
    if u.scheme = "blob" then
      some (match parseBase u.rest with
            | some inner => baseOrigin inner
            | none => "null")
    else some (baseOrigin u)

/-! ## URL Policy (`isSafeUrl`, `windowOpenHandler`, `will-navigate`) -/

/-- `ALLOWED_PROTOCOLS` of `preload.js` (line 50). -/
def allowedProtocols : List String := ["https:", "mailto:", "tel:"]

/-- `isSafeUrl` (preload.js lines 53-60): parse, then check the
protocol against the allow-set; any parse failure is caught and yields
`false`. -/
def isSafeUrl (urlString : String) : Bool :=
  match parseBase urlString with
  | some u => allowedProtocols.contains (protocolOf u)
  | none => false

/-- A JavaScript argument passed where a URL string is expected;
`new URL` stringifies `null` and `undefined`. -/
inductive UrlArg
  | str (s : String)
  | nullArg
  | undefArg
deriving DecidableEq, Repr

/-- JavaScript ToString on a URL argument. -/
def urlArgToString : UrlArg → String
  | .str s => s
  | .nullArg => "null"
  | .undefArg => "undefined"

/-- `isSafeUrl` applied to an arbitrary JS argument. -/
def isSafeUrlArg (a : UrlArg) : Bool :=
  isSafeUrl (urlArgToString a)

/-- The `setWindowOpenHandler` verdict. -/
inductive WindowOpenAction
  | deny
  | allow
deriving DecidableEq, Repr

/-- Observable side effects of the window-open handler. -/
inductive OpenEffect
  | openExternal (url : String)
  | warnBlockedUrl (url : String)
deriving DecidableEq, Repr

/-- `windowOpenHandler` (preload.js lines 732-740): route safe URLs to
`shell.openExternal`, log everything else, always answer deny. -/
def windowOpenHandler (url : String) : WindowOpenAction × List OpenEffect :=
  if isSafeUrl url then (.deny, [.openExternal url])
  else (.deny, [.warnBlockedUrl url])

/-- Outcome of the `will-navigate` handler (preload.js lines 745-750):
it parses with no try/catch, so a parse failure throws out of the
handler (and `preventDefault` is then never reached). -/
inductive NavOutcome
  | throwsErr
  | prevented
  | allowed
deriving DecidableEq, Repr

/-- The home origin the handler compares against. -/
def homeOrigin : String := "https://bsky.app"

/-- The `will-navigate` handler body. -/
def willNavigateHandler (navigationUrl : String) : NavOutcome :=
  match urlOrigin navigationUrl with
  | none => .throwsErr
  | some o => if o = homeOrigin then .allowed else .prevented

/-! ## Error Sanitizer -/

/-- The JavaScript values the sanitizers distinguish: an Error instance
(with name, message, stack) versus everything else. -/
inductive JSVal
  | errorVal (name : String) (message : String) (stackTrace : String)
  | stringVal (s : String)
  | numberVal (n : Int)
  | objectVal
  | nullVal
  | undefinedVal
deriving DecidableEq, Repr

/-- Result of the generic sanitizer: a record or a plain string. -/
inductive SanitizeResult
  | errRecord (name : String) (message : String) (stackTrace : Option String)
  | plainString (s : String)
deriving DecidableEq, Repr

/-- `sanitizeError` (preload.js lines 63-72): Error instances keep
their name, get the fixed generic message and a null stack; everything
else maps to the constant marker. -/
def sanitizeError : JSVal → SanitizeResult
  | .errorVal name _ _ => .errRecord name "Application error occurred" none
  | _ => .plainString "Unknown error"

/-- Whether a value is an Error instance. -/
def isErrorVal : JSVal → Bool
  | .errorVal _ _ _ => true
  | _ => false

/-- JS `\w`: ASCII alphanumerics and underscore. -/
def wordChar (c : Char) : Bool :=
  c.isAlpha || c.isDigit || c = '_'

/-- JS `\s`: tab through carriage return, space, NBSP, Ogham space,
the U+2000..U+200A range, line/paragraph separators, narrow NBSP,
medium mathematical space, ideographic space and BOM. -/
def jsWhitespace (c : Char) : Bool :=
  let n := c.toNat
  (decide (9 ≤ n) && decide (n ≤ 13)) || decide (n = 32) || decide (n = 160) ||
  decide (n = 5760) || (decide (8192 ≤ n) && decide (n ≤ 8202)) ||
  decide (n = 8232) || decide (n = 8233) || decide (n = 8239) ||
  decide (n = 8287) || decide (n = 12288) || decide (n = 65279)

/-- The punctuation the scrubbing regex allows. -/
def scrubPunct (c : Char) : Bool :=
  ['.', ',', '!', '?', '@', '#', '$', '%', '^', '&', '*', '(', ')', '-', '+', '='].contains c

/-- A character the scrubbing regex `[^\w\s.,!?@#$%^&*()\-+=]` leaves
untouched. -/
def regexSafeChar (c : Char) : Bool :=
  wordChar c || jsWhitespace c || scrubPunct c

/-- The scrub: every character outside the safe class becomes `*`. -/
def scrubMessageChars (m : List Char) : List Char :=
  m.map (fun c => if regexSafeChar c then c else '*')

/-- The scrubbing sanitizer variant (test-suite recreation, unnamed
part_001 lines 16-24): Error instances keep their name and get the
scrubbed message (the returned record has no stack field); everything
else maps to the constant marker. -/
def sanitizeErrorScrub : JSVal → SanitizeResult
  | .errorVal name message _ =>
    .errRecord name (String.mk (scrubMessageChars message.data)) none
  | _ => .plainString "Unknown error"

/-- The claim's literal allow-set `[A-Za-z0-9 .,!?@#$%^&*()\-+=_]`,
written from the specification's words for comparison with the code's
class (which additionally allows every `\s` character). -/
def claimSafeChar (c : Char) : Bool :=
  c.isAlpha || c.isDigit || c = Char.ofNat 32 || scrubPunct c || c = '_'

/-- The script-tag payload the spec's scrubbing property mentions. -/
def scriptTagChars : List Char := "<script>".data

/-- Concrete message containing a tab: its only unusual character is
allowed by the code's `\s` but lies outside the claim's allow-set. -/
def tabMessage : List Char := ['a', Char.ofNat 9, 'b']

/-! ## Window Lifecycle Coordinator (the `mainWindow` session) -/

/-- The per-window session state `preload.js` keeps on the
`BrowserWindow` object: the re-entrancy flag `_isLoading`, the
`_loadingStartTime` marker, the `_cacheInterval` and
`_memoryMonitorInterval` handles.  `liveCacheTimers` and
`liveMemoryTimers` count interval timers created and not yet cancelled,
so leaks are observable; `nextTimerId` supplies fresh handles;
`installCount` counts enhancement-install injections; `warnCount`
counts dropped duplicate load signals. -/
structure Session where
  winExists : Bool
  isLoading : Bool
  hasLoadStart : Bool
  cacheHandle : Option Nat
  memoryHandle : Option Nat
  nextTimerId : Nat
  liveCacheTimers : Nat
  liveMemoryTimers : Nat
  installCount : Nat
  warnCount : Nat
deriving DecidableEq, Repr

/-- Fresh window: no flags, no timers. -/
def initSession : Session :=
  ⟨true, false, false, none, none, 0, 0, 0, 0, 0⟩

/-- `clearInterval(_cacheInterval); _cacheInterval = null` guarded on
the handle being present. -/
def clearCacheTimer (s : Session) : Session :=
  match s.cacheHandle with
  | some _ => { s with cacheHandle := none, liveCacheTimers := s.liveCacheTimers - 1 }
  | none => s

/-- Same for the memory-probe interval. -/
def clearMemoryTimer (s : Session) : Session :=
  match s.memoryHandle with
  | some _ => { s with memoryHandle := none, liveMemoryTimers := s.liveMemoryTimers - 1 }
  | none => s

/-- `_cacheInterval = setInterval(clearCache, 30 * 60 * 1000)`. -/
def armCacheTimer (s : Session) : Session :=
  { s with cacheHandle := some s.nextTimerId,
           nextTimerId := s.nextTimerId + 1,
           liveCacheTimers := s.liveCacheTimers + 1 }

/-- `_memoryMonitorInterval = setInterval(..., 60000)`. -/
def armMemoryTimer (s : Session) : Session :=
  { s with memoryHandle := some s.nextTimerId,
           nextTimerId := s.nextTimerId + 1,
           liveMemoryTimers := s.liveMemoryTimers + 1 }

/-- The `did-finish-load` handler (preload.js lines 118-729): drop the
signal with a warning when `_isLoading` is set; otherwise set the flag
and timestamp, cancel any existing cache interval, inject the
enhancement install, arm a fresh cache interval, and arm the memory
probe only when absent. -/
def onLoadFinished (s : Session) : Session :=
  if s.winExists = false then s
  else if s.isLoading then { s with warnCount := s.warnCount + 1 }
  else
    let s1 := { s with isLoading := true, hasLoadStart := true }
    let s2 := clearCacheTimer s1
    let s3 := { s2 with installCount := s2.installCount + 1 }
    let s4 := armCacheTimer s3
    if s4.memoryHandle = none then armMemoryTimer s4 else s4

/-- The `finally`-scheduled `setTimeout` firing (preload.js lines
668-673): clear the loading flag and timestamp if the window still
exists. -/
def onLoadingReset (s : Session) : Session :=
  if s.winExists then { s with isLoading := false, hasLoadStart := false } else s

/-- The `close` handler (close-to-tray, lines 753-786): requests page
teardown and hides the window; the session's timers are untouched. -/
def onCloseToTray (s : Session) : Session := s

/-- The `closed` handler (lines 789-818): clear both intervals, clear
the loading flags, null the window reference. -/
def onClosed (s : Session) : Session :=
  if s.winExists then
    { clearMemoryTimer (clearCacheTimer s) with
        isLoading := false, hasLoadStart := false, winExists := false }
  else s

/-- The `destroyed` handler (lines 821-843): same resource cleanup,
guarded on the window reference. -/
def onDestroyed (s : Session) : Session :=
  if s.winExists then
    { clearMemoryTimer (clearCacheTimer s) with
        isLoading := false, hasLoadStart := false, winExists := false }
  else s

/-- The `render-process-gone` handler (lines 846-887): for a clean
departure it first best-effort requests page teardown (a page-context
call, not session state), then clears both intervals either way. -/
def onRendererGone (_clean : Bool) (s : Session) : Session :=
  if s.winExists then clearMemoryTimer (clearCacheTimer s) else s

/-- The `unresponsive` handler (lines 890-907): clear both intervals. -/
def onUnresponsive (s : Session) : Session :=
  if s.winExists then clearMemoryTimer (clearCacheTimer s) else s

/-- The `responsive` handler (lines 910-927): re-arm the cache interval
only when none is armed.  (The event only fires on a live window.) -/
def onResponsive (s : Session) : Session :=
  if s.winExists ∧ s.cacheHandle = none then armCacheTimer s else s

/-- The window-lifecycle events the claims quantify over. -/
inductive WinEvent
  | loadFinished
  | loadingReset
  | closeToTray
  | closed
  | destroyed
  | rendererGone (clean : Bool)
  | unresponsive
  | responsive
deriving DecidableEq, Repr

/-- One step of the coordinator. -/
def stepEvent (e : WinEvent) (s : Session) : Session :=
  match e with
  | .loadFinished => onLoadFinished s
  | .loadingReset => onLoadingReset s
  | .closeToTray => onCloseToTray s
  | .closed => onClosed s
  | .destroyed => onDestroyed s
  | .rendererGone clean => onRendererGone clean s
  | .unresponsive => onUnresponsive s
  | .responsive => onResponsive s

/-- Run an event sequence. -/
def runEvents (evs : List WinEvent) (s : Session) : Session :=
  evs.foldl (fun t e => stepEvent e t) s

/-- The timer-hygiene invariant: the number of live interval timers of
each kind equals the number of handles the session holds (zero or one).
In particular at most one of each is ever live. -/
def TimerInv (s : Session) : Prop :=
  s.liveCacheTimers = (if s.cacheHandle.isSome then 1 else 0) ∧
  s.liveMemoryTimers = (if s.memoryHandle.isSome then 1 else 0)

instance (s : Session) : Decidable (TimerInv s) := by
  unfold TimerInv; infer_instance

/-- One load-to-ready cycle: the load-finished signal followed by the
adaptive-delay flag reset. -/
def loadCycle (s : Session) : Session :=
  onLoadingReset (onLoadFinished s)

/-! ## Page Enhancement Controller (injected script) -/

/-- The `ScrollRefreshManager` reference registry built by the injected
install script: one optional handle per interval, timeout, listener and
DOM node it creates (field order follows the source object). -/
structure PageManager where
  idleInterval : Option Nat
  floatAnimationT : Option Nat
  indicatorT : Option Nat
  idleCheckT : Option Nat
  mouseHideT : Option Nat
  scrollShowT : Option Nat
  scrollH : Option Nat
  wheelH : Option Nat
  mouseMoveH : Option Nat
  scrollShowH : Option Nat
  pinEnterH : Option Nat
  pinLeaveH : Option Nat
  pinClickH : Option Nat
  fbEnterH : Option Nat
  fbLeaveH : Option Nat
  fbClickH : Option Nat
  fbDownH : Option Nat
  fbUpH : Option Nat
  pinButtonE : Option Nat
  floatingBtnE : Option Nat
  indicatorE : Option Nat
  spinnerStyleE : Option Nat
  btnStyleE : Option Nat
deriving DecidableEq, Repr

/-- The observable page environment: live interval ids, live timeout
ids, listener registrations per target keyed by (event name, exact
handler reference), and attached DOM nodes. -/
structure PageEnv where
  liveIntervals : List Nat
  liveTimeouts : List Nat
  winListeners : List (String × Nat)
  docListeners : List (String × Nat)
  pinListeners : List (String × Nat)
  fbListeners : List (String × Nat)
  domNodes : List Nat
deriving DecidableEq, Repr

/-- The handles actually present among a list of optional handles. -/
def optKeys {α : Type} (xs : List (Option α)) : List α :=
  xs.filterMap id

/-- Erase each key in order (each erase removes one occurrence, the
semantics of `clearInterval` / `clearTimeout` / `removeEventListener`
with an exact reference). -/
def eraseKeys {α : Type} [DecidableEq α] (ks : List α) (l : List α) : List α :=
  ks.foldl (fun acc k => acc.erase k) l

/-- The timeout handles the teardown clears (source iterates the
`timeouts` object's keys). -/
def timeoutKeys (m : PageManager) : List Nat :=
  optKeys [m.floatAnimationT, m.indicatorT, m.idleCheckT, m.mouseHideT, m.scrollShowT]

/-- The window-target listeners removed, with their exact references:
`scroll`/`handleScroll`, `wheel`/`handleWheel`,
`scroll`/`handleScrollShow`. -/
def winListenerKeys (m : PageManager) : List (String × Nat) :=
  optKeys [m.scrollH.map (fun h => ("scroll", h)),
           m.wheelH.map (fun h => ("wheel", h)),
           m.scrollShowH.map (fun h => ("scroll", h))]

/-- The document-target listeners removed: `mousemove`. -/
def docListenerKeys (m : PageManager) : List (String × Nat) :=
  optKeys [m.mouseMoveH.map (fun h => ("mousemove", h))]

/-- The pin-button listeners removed (only reachable when the pin
button element reference is present, as in the source). -/
def pinListenerKeys (m : PageManager) : List (String × Nat) :=
  if m.pinButtonE.isSome then
    optKeys [m.pinEnterH.map (fun h => ("mouseenter", h)),
             m.pinLeaveH.map (fun h => ("mouseleave", h)),
             m.pinClickH.map (fun h => ("click", h))]
  else []

/-- The floating-refresh-button listeners removed (guarded on the
button element reference, via its stored `_handlers`). -/
def fbListenerKeys (m : PageManager) : List (String × Nat) :=
  if m.floatingBtnE.isSome then
    optKeys [m.fbEnterH.map (fun h => ("mouseenter", h)),
             m.fbLeaveH.map (fun h => ("mouseleave", h)),
             m.fbClickH.map (fun h => ("click", h)),
             m.fbDownH.map (fun h => ("mousedown", h)),
             m.fbUpH.map (fun h => ("mouseup", h))]
  else []

/-- The DOM nodes removed. -/
def nodeKeys (m : PageManager) : List Nat :=
  optKeys [m.pinButtonE, m.floatingBtnE, m.indicatorE, m.spinnerStyleE, m.btnStyleE]

/-- Release every resource the registry records (the body of
`window.scrollRefreshCleanup`, injected script lines 562-654). -/
def releaseManager (m : PageManager) (env : PageEnv) : PageEnv :=
  { liveIntervals := eraseKeys (optKeys [m.idleInterval]) env.liveIntervals,
    liveTimeouts := eraseKeys (timeoutKeys m) env.liveTimeouts,
    winListeners := eraseKeys (winListenerKeys m) env.winListeners,
    docListeners := eraseKeys (docListenerKeys m) env.docListeners,
    pinListeners := eraseKeys (pinListenerKeys m) env.pinListeners,
    fbListeners := eraseKeys (fbListenerKeys m) env.fbListeners,
    domNodes := eraseKeys (nodeKeys m) env.domNodes }

/-- Page-context state: the environment plus the installed cleanup
entry point (absent when `window.scrollRefreshCleanup` does not exist;
every caller invokes it behind that existence guard, and the function
deletes itself at the end of a run). -/
structure PageState where
  env : PageEnv
  cleanup : Option PageManager
deriving DecidableEq, Repr

/-- The guarded teardown invocation
`if (window.scrollRefreshCleanup) window.scrollRefreshCleanup()`. -/
def scrollRefreshCleanup (s : PageState) : PageState :=
  match s.cleanup with
  | none => s
  | some m => { env := releaseManager m s.env, cleanup := none }

/-! ## Scroll-to-refresh wheel gesture -/

/-- A wheel event as the handler's validation sees it: absent event,
non-numeric `deltaY`, non-finite `deltaY`, or a finite value. -/
inductive WheelEventArg
  | noEvent
  | nonNumericDelta
  | nonFiniteDelta
  | delta (d : ℚ)
deriving DecidableEq, Repr

/-- The gesture state the injected script keeps: at-top flag, the
wheel-delta accumulator, indicator visibility, and the pending
single-shot reload timeout. -/
structure WheelState where
  isAtTop : Bool
  wheelDeltaAccumulator : ℚ
  indicatorVisible : Bool
  indicatorTimeout : Option Nat
  nextTimeoutId : Nat
deriving DecidableEq, Repr

/-- The stored threshold (`data.threshold = -150`). -/
def wheelThreshold : ℚ := -150

/-- `handleWheel` (injected script lines 268-305): reject malformed,
non-finite or implausibly large deltas; ignore input away from the top;
accumulate upward magnitudes and on crossing `|threshold|` show the
indicator and re-arm the single-shot reload timeout (clearing any prior
one); on a downward delta reset the accumulator, hide the indicator and
cancel the pending timeout. -/
def handleWheel (s : WheelState) (e : WheelEventArg) : WheelState :=
  match e with
  | .noEvent => s
  | .nonNumericDelta => s
  | .nonFiniteDelta => s
  | .delta d =>
    if 1000 < |d| then s
    else if s.isAtTop = false then s
    else if d < 0 then
      let acc := s.wheelDeltaAccumulator + |d|
      if |wheelThreshold| ≤ acc then
        { s with wheelDeltaAccumulator := acc,
                 indicatorVisible := true,
                 indicatorTimeout := some s.nextTimeoutId,
                 nextTimeoutId := s.nextTimeoutId + 1 }
      else { s with wheelDeltaAccumulator := acc }
    else
      { s with wheelDeltaAccumulator := 0,
               indicatorVisible := false,
               indicatorTimeout := none }

/-- The gesture state right after install: at top, zero accumulator,
nothing pending. -/
def initWheelState : WheelState :=
  ⟨true, 0, false, none, 0⟩

/-! ## Always-on-top toggle -/

/-- The main window as the IPC handler observes it. -/
structure MainWindowState where
  destroyed : Bool
  alwaysOnTop : Bool
deriving DecidableEq, Repr

/-- Notifications sent to the renderer. -/
inductive RendererNotice
  | alwaysOnTopChanged (isAlwaysOnTop : Bool)
deriving DecidableEq, Repr

/-- The `toggle-always-on-top` IPC handler (preload.js lines
1022-1030): when the window exists and is not destroyed, negate its
always-on-top state and send exactly one change notification carrying
the new state; otherwise do nothing. -/
def toggleAlwaysOnTopHandler (w : Option MainWindowState) :
    Option MainWindowState × List RendererNotice :=
  match w with
  | none => (none, [])
  | some win =>
    if win.destroyed then (some win, [])
    else (some { win with alwaysOnTop := !win.alwaysOnTop },
          [.alwaysOnTopChanged (!win.alwaysOnTop)])

/-! ## Process-fatal fault path -/

/-- The two emitters a listener can be attached to. -/
inductive FaultEmitter
  | appEmitter
  | processEmitter
deriving DecidableEq, Repr

/-- One listener registration. -/
structure ListenerReg where
  emitter : FaultEmitter
  eventName : String
deriving DecidableEq, Repr

/-- Every registration the source performs through `addAppListener`
(preload.js lines 1016-1019, 1033-1069): all of them call `app.on`,
including the two fault handlers. -/
def registeredListeners : List ListenerReg :=
  [⟨.appEmitter, "window-all-closed"⟩,
   ⟨.appEmitter, "activate"⟩,
   ⟨.appEmitter, "before-quit"⟩,
   ⟨.appEmitter, "uncaughtException"⟩,
   ⟨.appEmitter, "unhandledRejection"⟩]

/-- The registrations a signal on a given emitter triggers. -/
def handlersTriggeredBy (em : FaultEmitter) (ev : String) : List ListenerReg :=
  registeredListeners.filter (fun r => r.emitter == em && r.eventName == ev)

/-- Observable effects of the fault handlers. -/
inductive FatalEffect
  | logSanitized (record : SanitizeResult)
  | requestPageTeardown
  | exitProcess (code : Nat)
deriving DecidableEq, Repr

/-- The `uncaughtException` handler body (lines 1051-1066): log the
sanitized fault, run `performGracefulCleanup` (which requests page
teardown when a window is alive) and exit with status 1; the cleanup
promise always fulfills, so the exit-1 continuation always runs. -/
def uncaughtExceptionHandlerEffects (fault : JSVal) (windowAlive : Bool) :
    List FatalEffect :=
  [.logSanitized (sanitizeError fault)] ++
  (if windowAlive then [.requestPageTeardown] else []) ++
  [.exitProcess 1]

/-- The `unhandledRejection` handler body (lines 1069-1093): log the
sanitized reason and best-effort request page teardown; it never
terminates the process. -/
def unhandledRejectionHandlerEffects (reason : JSVal) (windowAlive : Bool) :
    List FatalEffect :=
  [.logSanitized (sanitizeError reason)] ++
  (if windowAlive then [.requestPageTeardown] else [])

/-- `performGracefulCleanup`'s wait (lines 1096-1135): the page
teardown promise races a 3000 ms timeout, so the wait resolves at the
teardown's resolve time or at 3000 ms, whichever is first (3000 ms when
the page hangs forever, modelled by `none`). -/
def raceTeardownResolveTime (teardownDone : Option Nat) : Nat :=
  match teardownDone with
  | some t => min t 3000
  | none => 3000

/-- The effects a process-level fault signal produces from this
program: the bodies of whatever handlers are registered on the process
emitter for that event. -/
def processFaultEffects (ev : String) (arg : JSVal) (windowAlive : Bool) :
    List FatalEffect :=
  (handlersTriggeredBy .processEmitter ev).foldl
    (fun acc r =>
      acc ++
      (if r.eventName = "uncaughtException" then
        uncaughtExceptionHandlerEffects arg windowAlive
      else if r.eventName = "unhandledRejection" then
        unhandledRejectionHandlerEffects arg windowAlive
      else []))
    []

/-- Ready state with exactly one live timer of each kind: the shape a
session has after completing a load-to-ready cycle. -/
def ReadyOne (s : Session) : Prop :=
  s.winExists = true ∧ s.isLoading = false ∧
  s.cacheHandle.isSome = true ∧ s.memoryHandle.isSome = true ∧
  s.liveCacheTimers = 1 ∧ s.liveMemoryTimers = 1

instance (s : Session) : Decidable (ReadyOne s) := by
  unfold ReadyOne; infer_instance

/-- A fully populated registry fixture (distinct handles). -/
def mgrAll : PageManager :=
  ⟨some 0, some 1, some 2, some 3, some 4, some 5,
   some 10, some 11, some 12, some 13, some 14, some 15, some 16,
   some 20, some 21, some 22, some 23, some 24,
   some 30, some 31, some 32, some 33, some 34⟩

/-- A page environment holding exactly the resources `mgrAll` records. -/
def envAll : PageEnv :=
  ⟨[0], [1, 2, 3, 4, 5],
   [("scroll", 10), ("wheel", 11), ("scroll", 13)],
   [("mousemove", 12)],
   [("mouseenter", 14), ("mouseleave", 15), ("click", 16)],
   [("mouseenter", 20), ("mouseleave", 21), ("click", 22), ("mousedown", 23), ("mouseup", 24)],
   [30, 31, 32, 33, 34]⟩

/-! ## Helper lemmas -/

/-- Erasing a list of keys from a duplicate-free list removes exactly
the listed keys. -/
theorem mem_eraseKeys {α : Type} [DecidableEq α] (ks : List α) :
    ∀ (l : List α), l.Nodup → ∀ x, (x ∈ eraseKeys ks l ↔ x ∈ l ∧ x ∉ ks) := by
  induction ks with
  | nil => intro l _ x; simp [eraseKeys]
  | cons k ks ih =>
    intro l hl x
    have hstep : eraseKeys (k :: ks) l = eraseKeys ks (l.erase k) := rfl
    rw [hstep, ih (l.erase k) (hl.erase k), hl.mem_erase_iff]
    simp only [List.mem_cons]
    tauto

/-! ## Claim theorems -/

/-- C7: the generic sanitizer is a total function; on an Error-shaped
input it keeps the name tag, substitutes the fixed generic message for
the free-text message, and carries a null stack; on every non-error
input it returns exactly the constant marker string; no output ever
carries a stack trace. -/
theorem C7_sanitizer_generic (v : JSVal) :
    (∀ n msg st, v = JSVal.errorVal n msg st →
      sanitizeError v = SanitizeResult.errRecord n "Application error occurred" none) ∧
    (isErrorVal v = false → sanitizeError v = SanitizeResult.plainString "Unknown error") ∧
    (∀ n msg st, sanitizeError v ≠ SanitizeResult.errRecord n msg (some st)) := by
  cases v <;> simp [sanitizeError, isErrorVal]

/-- C7 witness: the theorem at a concrete Error and at null. -/
theorem C7_sanitizer_generic_witness :
    sanitizeError (JSVal.errorVal "TypeError" "secret db password" "at main.js:3") =
      SanitizeResult.errRecord "TypeError" "Application error occurred" none ∧
    sanitizeError JSVal.nullVal = SanitizeResult.plainString "Unknown error" :=
  ⟨(C7_sanitizer_generic (JSVal.errorVal "TypeError" "secret db password" "at main.js:3")).1
      "TypeError" "secret db password" "at main.js:3" rfl,
   (C7_sanitizer_generic JSVal.nullVal).2.1 rfl⟩

/-- C8 counterexample: the claim's allow-set admits only the space
character among whitespace, but the code's scrub class admits every
JavaScript whitespace character.  A message containing a tab is outside
the claim's allow-set, yet the scrub returns it unchanged with no mask
character. -/
theorem C8_counterexample_scrub :
    Char.ofNat 9 ∈ tabMessage ∧
    claimSafeChar (Char.ofNat 9) = false ∧
    scrubMessageChars tabMessage = tabMessage ∧
    ('*' ∈ scrubMessageChars tabMessage) = False ∧
    sanitizeErrorScrub (JSVal.errorVal "Error" (String.mk tabMessage) "tr") =
      SanitizeResult.errRecord "Error" (String.mk tabMessage) none := by
  refine ⟨by decide, by decide, by decide, by simp; decide, by decide⟩

/-- C8 (amended): with the safe allow-set read as the code's class
(word characters, JavaScript whitespace, and the listed punctuation),
the scrub emits at least one mask character whenever the input has a
character outside the class, is byte-identical to the input when every
character is safe (and position-wise preserves each safe character),
and its output can never contain the script-tag payload verbatim. -/
theorem C8_scrub_amended (m : List Char) :
    ((∃ c, c ∈ m ∧ regexSafeChar c = false) → '*' ∈ scrubMessageChars m) ∧
    ((∀ c, c ∈ m → regexSafeChar c = true) → scrubMessageChars m = m) ∧
    ((scrubMessageChars m).length = m.length) ∧
    (∀ i : Nat, (scrubMessageChars m)[i]? =
      (m[i]?).map (fun c => if regexSafeChar c then c else '*')) ∧
    (∀ l1 l2 : List Char, scrubMessageChars m ≠ l1 ++ scriptTagChars ++ l2) := by
  refine ⟨?_, ?_, ?_, ?_, ?_⟩
  · rintro ⟨c, hc, hsafe⟩
    exact List.mem_map.mpr ⟨c, hc, by simp [hsafe]⟩
  · intro hall
    unfold scrubMessageChars
    have h1 : ∀ a ∈ m, (fun c => if regexSafeChar c then c else '*') a = id a :=
      fun a ha => by simp [hall a ha]
    rw [List.map_congr_left h1, List.map_id]
  · exact List.length_map m _
  · intro i
    exact List.getElem?_map _ m i
  · intro l1 l2 h
    have hlt : '<' ∈ scrubMessageChars m := by
      rw [h]
      have : '<' ∈ scriptTagChars := by decide
      simp [this]
    obtain ⟨c, _, he⟩ := List.mem_map.mp hlt
    by_cases hs : regexSafeChar c = true
    · rw [if_pos hs] at he
      subst he
      exact absurd hs (by decide)
    · rw [if_neg hs] at he
      exact absurd he (by decide)

/-- C8 witness: the amended theorem at a concrete payload. -/
theorem C8_scrub_amended_witness :
    '*' ∈ scrubMessageChars ['<', 'x'] :=
  (C8_scrub_amended ['<', 'x']).1 ⟨'<', by decide, by decide⟩

/-- C9: the wheel gesture.  Malformed, non-numeric, non-finite and
implausibly large deltas leave the state untouched; at scroll-top,
upward deltas of magnitude 60 then 100 against threshold magnitude 150
leave the accumulator at 60 (below threshold, nothing armed) and then
at 160 (threshold crossed: indicator visible, single-shot reload timer
armed); a following downward delta before the timer fires zeroes the
accumulator, hides the indicator and cancels the pending reload. -/
theorem C9_wheel_gesture :
    (∀ s, handleWheel s WheelEventArg.noEvent = s ∧
          handleWheel s WheelEventArg.nonNumericDelta = s ∧
          handleWheel s WheelEventArg.nonFiniteDelta = s) ∧
    (∀ s d, 1000 < |d| → handleWheel s (WheelEventArg.delta d) = s) ∧
    ((handleWheel initWheelState (WheelEventArg.delta (-60))).wheelDeltaAccumulator = 60 ∧
     (handleWheel initWheelState (WheelEventArg.delta (-60))).wheelDeltaAccumulator <
       |wheelThreshold| ∧
     (handleWheel initWheelState (WheelEventArg.delta (-60))).indicatorVisible = false ∧
     (handleWheel initWheelState (WheelEventArg.delta (-60))).indicatorTimeout = none) ∧
    ((handleWheel (handleWheel initWheelState (WheelEventArg.delta (-60)))
        (WheelEventArg.delta (-100))).wheelDeltaAccumulator = 160 ∧
     |wheelThreshold| ≤
       (handleWheel (handleWheel initWheelState (WheelEventArg.delta (-60)))
         (WheelEventArg.delta (-100))).wheelDeltaAccumulator ∧
     (handleWheel (handleWheel initWheelState (WheelEventArg.delta (-60)))
        (WheelEventArg.delta (-100))).indicatorVisible = true ∧
     (handleWheel (handleWheel initWheelState (WheelEventArg.delta (-60)))
        (WheelEventArg.delta (-100))).indicatorTimeout.isSome = true) ∧
    ((handleWheel (handleWheel (handleWheel initWheelState (WheelEventArg.delta (-60)))
        (WheelEventArg.delta (-100))) (WheelEventArg.delta 30)).wheelDeltaAccumulator = 0 ∧
     (handleWheel (handleWheel (handleWheel initWheelState (WheelEventArg.delta (-60)))
        (WheelEventArg.delta (-100))) (WheelEventArg.delta 30)).indicatorVisible = false ∧
     (handleWheel (handleWheel (handleWheel initWheelState (WheelEventArg.delta (-60)))
        (WheelEventArg.delta (-100))) (WheelEventArg.delta 30)).indicatorTimeout = none) := by
  have h1 : handleWheel initWheelState (WheelEventArg.delta (-60)) =
      ⟨true, 60, false, none, 0⟩ := by
    unfold handleWheel initWheelState
    norm_num [wheelThreshold]
  have h2 : handleWheel ⟨true, 60, false, none, 0⟩ (WheelEventArg.delta (-100)) =
      ⟨true, 160, true, some 0, 1⟩ := by
    unfold handleWheel
    norm_num [wheelThreshold]
  have h3 : handleWheel ⟨true, 160, true, some 0, 1⟩ (WheelEventArg.delta 30) =
      ⟨true, 0, false, none, 1⟩ := by
    unfold handleWheel
    norm_num
  refine ⟨fun s => ⟨rfl, rfl, rfl⟩, ?_, ?_, ?_, ?_⟩
  · intro s d h
    simp only [handleWheel]
    rw [if_pos h]
  · rw [h1]
    exact ⟨rfl, by norm_num [wheelThreshold], rfl, rfl⟩
  · rw [h1, h2]
    exact ⟨rfl, by norm_num [wheelThreshold], rfl, rfl⟩
  · rw [h1, h2, h3]
    exact ⟨rfl, rfl, rfl⟩

/-- C9 witness: rejection of an implausibly large delta at a concrete
state and value. -/
theorem C9_wheel_gesture_witness :
    handleWheel initWheelState (WheelEventArg.delta 5000) = initWheelState :=
  C9_wheel_gesture.2.1 initWheelState 5000 (by norm_num)

/-- C10: the toggle-always-on-top request on a live window negates the
state and sends exactly one change notification carrying the new state;
on an absent or destroyed window it is a complete no-op. -/
theorem C10_always_on_top_toggle :
    (∀ w : MainWindowState, w.destroyed = false →
      toggleAlwaysOnTopHandler (some w) =
        (some { w with alwaysOnTop := !w.alwaysOnTop },
         [RendererNotice.alwaysOnTopChanged (!w.alwaysOnTop)])) ∧
    (∀ w : MainWindowState, w.destroyed = true →
      toggleAlwaysOnTopHandler (some w) = (some w, [])) ∧
    (toggleAlwaysOnTopHandler none = (none, [])) := by
  refine ⟨?_, ?_, rfl⟩
  · intro w hw
    simp [toggleAlwaysOnTopHandler, hw]
  · intro w hw
    simp [toggleAlwaysOnTopHandler, hw]

/-- C10 witness: the theorem at a concrete live window. -/
theorem C10_always_on_top_toggle_witness :
    toggleAlwaysOnTopHandler (some ⟨false, false⟩) =
      (some ⟨false, true⟩, [RendererNotice.alwaysOnTopChanged true]) :=
  C10_always_on_top_toggle.1 ⟨false, false⟩ rfl

/-- C4: every new-window request is answered deny; the URL is routed
to the OS open-external action exactly when it parses and its protocol
lies in the fixed allow-set, and is logged and dropped otherwise; the
allow-set admits https, mailto and tel and rejects http, file, ftp,
javascript, data, blob, vbscript, and every unparsable input including
the empty string, null and undefined. -/
theorem C4_external_open_policy :
    (∀ u, (windowOpenHandler u).1 = WindowOpenAction.deny) ∧
    (∀ u, OpenEffect.openExternal u ∈ (windowOpenHandler u).2 ↔ isSafeUrl u = true) ∧
    (∀ u, OpenEffect.warnBlockedUrl u ∈ (windowOpenHandler u).2 ↔ isSafeUrl u = false) ∧
    (∀ u rec, parseBase u = some rec →
      (isSafeUrl u = true ↔ allowedProtocols.contains (protocolOf rec) = true)) ∧
    (∀ u, parseBase u = none → isSafeUrl u = false) ∧
    (isSafeUrl "https://bsky.app" = true ∧ isSafeUrl "mailto:user@example.com" = true ∧
     isSafeUrl "tel:+1234567890" = true) ∧
    (isSafeUrl "http://example.com" = false ∧ isSafeUrl "file:///etc/passwd" = false ∧
     isSafeUrl "ftp://example.com" = false ∧ isSafeUrl "javascript:alert(1)" = false ∧
     isSafeUrl "data:text/html,x" = false ∧ isSafeUrl "blob:https://bsky.app/b" = false ∧
     isSafeUrl "vbscript:msgbox(1)" = false) ∧
    (isSafeUrlArg (UrlArg.str "") = false ∧ isSafeUrlArg UrlArg.nullArg = false ∧
     isSafeUrlArg UrlArg.undefArg = false ∧ isSafeUrlArg (UrlArg.str "not-a-url") = false) := by
  refine ⟨?_, ?_, ?_, ?_, ?_, by decide, by decide, by decide⟩
  · intro u
    unfold windowOpenHandler
    split <;> rfl
  · intro u
    unfold windowOpenHandler
    rcases h : isSafeUrl u <;> simp [h]
  · intro u
    unfold windowOpenHandler
    rcases h : isSafeUrl u <;> simp [h]
  · intro u rec h
    unfold isSafeUrl
    rw [h]
  · intro u h
    unfold isSafeUrl
    rw [h]

/-- C4 witness: the parse-conditioned part of the theorem at the home
URL and its concrete parse, plus the membership parts at a safe and an
unsafe URL. -/
theorem C4_external_open_policy_witness :
    (isSafeUrl "https://bsky.app" = true ↔
      allowedProtocols.contains (protocolOf ⟨"https", "bsky.app", none, ""⟩) = true) ∧
    (OpenEffect.openExternal "https://bsky.app" ∈ (windowOpenHandler "https://bsky.app").2 ↔
      isSafeUrl "https://bsky.app" = true) ∧
    isSafeUrl "not-a-url" = false :=
  ⟨C4_external_open_policy.2.2.2.1 "https://bsky.app" ⟨"https", "bsky.app", none, ""⟩ (by decide),
   C4_external_open_policy.2.1 "https://bsky.app",
   C4_external_open_policy.2.2.2.2.1 "not-a-url" (by decide)⟩

/-- C5 counterexample: the claim, as stated, fails on the code in two
places.  On an unparsable navigation URL the handler throws (the `new
URL` call has no try/catch) instead of evaluating to deny, so the
navigation is not prevented; and a blob URL whose inner origin is the
home origin is allowed, although the claim lists the blob scheme among
the always-denied ones. -/
theorem C5_counterexample_nav :
    willNavigateHandler "not-a-url" = NavOutcome.throwsErr ∧
    willNavigateHandler "blob:https://bsky.app/abc" = NavOutcome.allowed := by
  constructor <;> rfl

/-- C5 (amended): navigation is allowed iff the URL parses and its
origin string-equals the home origin https://bsky.app exactly (blob
URLs adopt the origin of their inner URL); on any parse failure the
handler throws and the navigation is not prevented; any other origin,
including subdomain and superstring hosts, Unicode look-alike hosts
distinct after normalization, and the javascript, data, file, ftp and
vbscript schemes, is denied and the denial prevents the navigation. -/
theorem C5_inplace_navigation_amended :
    (∀ u, willNavigateHandler u = NavOutcome.allowed ↔ urlOrigin u = some homeOrigin) ∧
    (∀ u, urlOrigin u = none → willNavigateHandler u = NavOutcome.throwsErr) ∧
    (∀ u o, urlOrigin u = some o → o ≠ homeOrigin →
      willNavigateHandler u = NavOutcome.prevented) ∧
    (willNavigateHandler "https://bsky.app/profile" = NavOutcome.allowed) ∧
    (willNavigateHandler "https://evil.bsky.app" = NavOutcome.prevented ∧
     willNavigateHandler "https://bsky.app.evil.com" = NavOutcome.prevented ∧
     willNavigateHandler "https://bskу.app" = NavOutcome.prevented) ∧
    (willNavigateHandler "javascript:alert(1)" = NavOutcome.prevented ∧
     willNavigateHandler "data:text/html,x" = NavOutcome.prevented ∧
     willNavigateHandler "file:///etc/passwd" = NavOutcome.prevented ∧
     willNavigateHandler "ftp://example.com" = NavOutcome.prevented ∧
     willNavigateHandler "vbscript:msgbox(1)" = NavOutcome.prevented ∧
     willNavigateHandler "blob:https://evil.com/abc" = NavOutcome.prevented) ∧
    (willNavigateHandler "" = NavOutcome.throwsErr) := by
  refine ⟨?_, ?_, ?_, rfl, ⟨rfl, rfl, rfl⟩, ⟨rfl, rfl, rfl, rfl, rfl, rfl⟩, rfl⟩
  · intro u
    unfold willNavigateHandler
    rcases h : urlOrigin u with _ | o
    · simp
    · by_cases ho : o = homeOrigin <;> simp [ho]
  · intro u h
    unfold willNavigateHandler
    rw [h]
  · intro u o h ho
    unfold willNavigateHandler
    rw [h]
    simp [ho]

/-- C5 witness: the origin-mismatch part of the amended theorem at a
concrete subdomain host. -/
theorem C5_inplace_navigation_amended_witness :
    willNavigateHandler "https://evil.bsky.app" = NavOutcome.prevented :=
  C5_inplace_navigation_amended.2.2.1 "https://evil.bsky.app" "https://evil.bsky.app"
    (by decide) (by decide)

/-- C6 counterexample: the fault handlers are registered through
`app.on`, so a process-level uncaught-exception or unhandled-rejection
signal triggers no handler of this program: no sanitized log, no
cleanup, no exit.  Moreover the unhandled-rejection handler body, even
when invoked, contains no process-exit effect. -/
theorem C6_counterexample_fatal :
    processFaultEffects "uncaughtException"
      (JSVal.errorVal "TypeError" "boom" "at main.js:3") true = [] ∧
    processFaultEffects "unhandledRejection"
      (JSVal.errorVal "TypeError" "boom" "at main.js:3") true = [] ∧
    (FatalEffect.exitProcess 1 ∈
      unhandledRejectionHandlerEffects
        (JSVal.errorVal "TypeError" "boom" "at main.js:3") true) = False := by
  refine ⟨rfl, rfl, by simp; decide⟩

/-- C6 (amended): every fault registration targets the app emitter,
none the process emitter, so a process-level fault signal produces no
effects from this program; the uncaught-exception handler body, when
invoked, logs the sanitized record first (the raw message is replaced
by the fixed generic string), requests page teardown on a live window,
and always exits with status 1; its cleanup wait races the page
teardown against a 3000 ms timeout and is therefore bounded by 3000 ms
no matter whether the page hangs; the unhandled-rejection handler body
logs the sanitized record and requests page teardown but never
terminates the process. -/
theorem C6_process_fatal_amended :
    (∀ r, r ∈ registeredListeners → r.emitter = FaultEmitter.appEmitter) ∧
    (∀ ev arg alive, processFaultEffects ev arg alive = []) ∧
    (∀ n msg st alive,
      (uncaughtExceptionHandlerEffects (JSVal.errorVal n msg st) alive).head? =
        some (FatalEffect.logSanitized
          (SanitizeResult.errRecord n "Application error occurred" none))) ∧
    (∀ fault alive,
      FatalEffect.exitProcess 1 ∈ uncaughtExceptionHandlerEffects fault alive ∧
      (alive = true →
        FatalEffect.requestPageTeardown ∈ uncaughtExceptionHandlerEffects fault alive)) ∧
    (∀ td, raceTeardownResolveTime td ≤ 3000) ∧
    (∀ reason alive c,
      FatalEffect.exitProcess c ∉ unhandledRejectionHandlerEffects reason alive) := by
  refine ⟨?_, ?_, ?_, ?_, ?_, ?_⟩
  · intro r hr
    fin_cases hr <;> rfl
  · intro ev arg alive
    have hfe : (FaultEmitter.appEmitter == FaultEmitter.processEmitter) = false := rfl
    unfold processFaultEffects handlersTriggeredBy registeredListeners
    simp [List.filter, hfe]
  · intro n msg st alive
    rfl
  · intro fault alive
    refine ⟨?_, ?_⟩
    · unfold uncaughtExceptionHandlerEffects
      rcases alive <;> simp
    · intro ha
      unfold uncaughtExceptionHandlerEffects
      simp [ha]
  · intro td
    rcases td with _ | t
    · exact le_refl 3000
    · exact min_le_right t 3000
  · intro reason alive c
    unfold unhandledRejectionHandlerEffects
    rcases alive <;> simp

/-- C6 witness: the amended theorem at a concrete registration, a
concrete fault with a live window, and the hung-page cleanup bound. -/
theorem C6_process_fatal_amended_witness :
    (ListenerReg.mk FaultEmitter.appEmitter "before-quit").emitter =
      FaultEmitter.appEmitter ∧
    FatalEffect.requestPageTeardown ∈
      uncaughtExceptionHandlerEffects JSVal.nullVal true ∧
    raceTeardownResolveTime none ≤ 3000 :=
  ⟨C6_process_fatal_amended.1 ⟨FaultEmitter.appEmitter, "before-quit"⟩ (by decide),
   (C6_process_fatal_amended.2.2.2.1 JSVal.nullVal true).2 rfl,
   C6_process_fatal_amended.2.2.2.2.1 none⟩

/-- Each lifecycle event preserves the timer-hygiene invariant. -/
theorem timerInv_step (e : WinEvent) (s : Session) (h : TimerInv s) :
    TimerInv (stepEvent e s) := by
  obtain ⟨h1, h2⟩ := h
  rcases hc : s.cacheHandle with _ | cv <;> rcases hm : s.memoryHandle with _ | mv <;>
    cases e <;>
    simp_all [stepEvent, onLoadFinished, onLoadingReset, onCloseToTray, onClosed,
      onDestroyed, onRendererGone, onUnresponsive, onResponsive,
      clearCacheTimer, clearMemoryTimer, armCacheTimer, armMemoryTimer, TimerInv] <;>
    split_ifs <;>
    simp_all

/-- A load-to-ready cycle keeps a session in the one-live-timer-each
ready shape. -/
theorem readyOne_cycle (s : Session) (h : ReadyOne s) : ReadyOne (loadCycle s) := by
  obtain ⟨hw, hl, hc, hm, h1, h2⟩ := h
  rcases hco : s.cacheHandle with _ | cv
  · simp [hco] at hc
  rcases hmo : s.memoryHandle with _ | mv
  · simp [hmo] at hm
  simp_all [loadCycle, onLoadFinished, onLoadingReset, clearCacheTimer,
    armCacheTimer, armMemoryTimer, ReadyOne]

/-- After any positive number of load-to-ready cycles from a fresh
session, the ready shape holds. -/
theorem readyOne_iterate (k : Nat) : ReadyOne ((loadCycle^[k + 1]) initSession) := by
  induction k with
  | zero =>
    rw [Function.iterate_one]
    decide
  | succ n ih =>
    rw [Function.iterate_succ_apply']
    exact readyOne_cycle _ ih

/-- C1: with the window live and no load in progress, a load-finished
signal performs exactly one enhancement install and raises the
re-entrancy flag; a second load-finished signal arriving before the
flag is reset changes nothing except the warning count — it is dropped,
not queued, and the install count stays at one more than before the
pair. -/
theorem C1_load_reentrancy_guard (s : Session)
    (hw : s.winExists = true) (hl : s.isLoading = false) :
    (onLoadFinished s).installCount = s.installCount + 1 ∧
    (onLoadFinished s).isLoading = true ∧
    (onLoadFinished s).winExists = true ∧
    onLoadFinished (onLoadFinished s) =
      { onLoadFinished s with warnCount := (onLoadFinished s).warnCount + 1 } ∧
    (onLoadFinished (onLoadFinished s)).installCount = s.installCount + 1 := by
  rcases hc : s.cacheHandle with _ | cv <;> rcases hm : s.memoryHandle with _ | mv <;>
    simp_all [onLoadFinished, clearCacheTimer, armCacheTimer, armMemoryTimer]

/-- C1 witness: the theorem at a fresh session. -/
theorem C1_load_reentrancy_guard_witness :
    (onLoadFinished (onLoadFinished initSession)).installCount =
      initSession.installCount + 1 :=
  (C1_load_reentrancy_guard initSession rfl rfl).2.2.2.2

/-- C2: the timer-hygiene invariant — the live cache-clear and
memory-probe interval counts each equal the number of handles held
(zero or one) — holds for a fresh session, is preserved by every load,
flag-reset, hide, close, destroy, renderer-gone, unresponsive and
responsive event (re-arming cancels the prior handle first, so no
accumulation is possible), hence holds at every point of every event
sequence; and after any positive number N of consecutive load-to-ready
cycles exactly one handle of each kind is live. -/
theorem C2_timer_handle_invariant :
    TimerInv initSession ∧
    (∀ e s, TimerInv s → TimerInv (stepEvent e s)) ∧
    (∀ evs, TimerInv (runEvents evs initSession)) ∧
    (∀ n, 1 ≤ n →
      ((loadCycle^[n]) initSession).liveCacheTimers = 1 ∧
      ((loadCycle^[n]) initSession).liveMemoryTimers = 1) := by
  have hrun : ∀ (evs : List WinEvent) (s : Session), TimerInv s → TimerInv (runEvents evs s) := by
    intro evs
    induction evs with
    | nil => intro s h; exact h
    | cons e evs ih =>
      intro s h
      exact ih _ (timerInv_step e s h)
  refine ⟨by decide, timerInv_step, fun evs => hrun evs initSession (by decide), ?_⟩
  intro n hn
  rcases n with _ | k
  · exact absurd hn (by norm_num)
  · have h := readyOne_iterate k
    exact ⟨h.2.2.2.2.1, h.2.2.2.2.2⟩

/-- C2 witness: the invariant after one concrete event and after three
concrete load-to-ready cycles. -/
theorem C2_timer_handle_invariant_witness :
    TimerInv (stepEvent WinEvent.loadFinished initSession) ∧
    ((loadCycle^[3]) initSession).liveCacheTimers = 1 ∧
    ((loadCycle^[3]) initSession).liveMemoryTimers = 1 :=
  ⟨C2_timer_handle_invariant.2.1 WinEvent.loadFinished initSession (by decide),
   (C2_timer_handle_invariant.2.2.2 3 (by norm_num)).1,
   (C2_timer_handle_invariant.2.2.2 3 (by norm_num)).2⟩

/-- C3: the guarded teardown is a no-op when the registry is absent,
always leaves the registry absent, and is idempotent; and on any
(fully or partially) populated registry over a duplicate-free
environment, releasing removes from the environment exactly the
handles the registry records — each interval, timeout, listener (keyed
by event name and the exact registered reference) and DOM node present
is released exactly once, and nothing else is touched. -/
theorem C3_teardown_idempotent_total :
    (∀ s : PageState, s.cleanup = none → scrollRefreshCleanup s = s) ∧
    (∀ s : PageState, (scrollRefreshCleanup s).cleanup = none) ∧
    (∀ s : PageState, scrollRefreshCleanup (scrollRefreshCleanup s) = scrollRefreshCleanup s) ∧
    (∀ (m : PageManager) (env : PageEnv),
      env.liveIntervals.Nodup → env.liveTimeouts.Nodup → env.winListeners.Nodup →
      env.docListeners.Nodup → env.pinListeners.Nodup → env.fbListeners.Nodup →
      env.domNodes.Nodup →
      (∀ x, x ∈ (releaseManager m env).liveIntervals ↔
        x ∈ env.liveIntervals ∧ x ∉ optKeys [m.idleInterval]) ∧
      (∀ x, x ∈ (releaseManager m env).liveTimeouts ↔
        x ∈ env.liveTimeouts ∧ x ∉ timeoutKeys m) ∧
      (∀ p, p ∈ (releaseManager m env).winListeners ↔
        p ∈ env.winListeners ∧ p ∉ winListenerKeys m) ∧
      (∀ p, p ∈ (releaseManager m env).docListeners ↔
        p ∈ env.docListeners ∧ p ∉ docListenerKeys m) ∧
      (∀ p, p ∈ (releaseManager m env).pinListeners ↔
        p ∈ env.pinListeners ∧ p ∉ pinListenerKeys m) ∧
      (∀ p, p ∈ (releaseManager m env).fbListeners ↔
        p ∈ env.fbListeners ∧ p ∉ fbListenerKeys m) ∧
      (∀ x, x ∈ (releaseManager m env).domNodes ↔ x ∈ env.domNodes ∧ x ∉ nodeKeys m)) := by
  refine ⟨?_, ?_, ?_, ?_⟩
  · intro s h
    unfold scrollRefreshCleanup
    rw [h]
  · intro s
    rcases hc : s.cleanup with _ | m <;> simp_all [scrollRefreshCleanup]
  · intro s
    rcases hc : s.cleanup with _ | m <;> simp [scrollRefreshCleanup, hc]
  · intro m env hI hT hW hD hP hF hN
    exact ⟨mem_eraseKeys _ _ hI, mem_eraseKeys _ _ hT, mem_eraseKeys _ _ hW,
           mem_eraseKeys _ _ hD, mem_eraseKeys _ _ hP, mem_eraseKeys _ _ hF,
           mem_eraseKeys _ _ hN⟩

/-- C3 witness: teardown on an absent registry at a concrete state, and
the exact-release property at a fully populated concrete registry: the
registered wheel listener is gone afterwards, with its exact reference
removed. -/
theorem C3_teardown_idempotent_total_witness :
    scrollRefreshCleanup ⟨envAll, none⟩ = ⟨envAll, none⟩ ∧
    (("wheel", 11) ∈ (releaseManager mgrAll envAll).winListeners ↔
      ("wheel", 11) ∈ envAll.winListeners ∧ ("wheel", 11) ∉ winListenerKeys mgrAll) :=
  ⟨C3_teardown_idempotent_total.1 ⟨envAll, none⟩ rfl,
   (C3_teardown_idempotent_total.2.2.2 mgrAll envAll (by decide) (by decide) (by decide)
      (by decide) (by decide) (by decide) (by decide)).2.2.1 ("wheel", 11)⟩
